/-
Verification of the Vapourizer web-crawler orchestration layer.

This file gives a shallow embedding, in Lean 4, of the repository's own
orchestration code:

  * src/util/constants.py      — filter configuration constants
  * src/util/file_writer.py    — FileWriter (streaming markdown artifact)
  * src/crawlers/web_crawler.py — WebCrawler configuration and crawl wrapper
  * src/llm/agent.py           — LLM configuration loading and agent creation
  * src/main.py                — the run controller (main)

External collaborators (the crawl4ai engine, the LLM provider, the OS
filesystem) are modelled as oracle parameters / explicit state, exactly at
the narrow interfaces through which the repository code touches them:

  * the crawl engine is a value of type `Except String (List PageResult)` —
    its result, or the exception it raised;
  * each `agent.run` call is an oracle `Nat → String → Except String String`
    taking the 1-based page index of the call and the prompt, returning the
    extracted output or the exception message (the index models the fact
    that distinct calls to the remote provider may behave differently);
  * a file is a `FileState` (its on-disk content); an open handle carries an
    unflushed buffer, so that write/flush ordering is observable;
  * character-level operations (isalnum, lower) are modelled on ASCII.

Strings printed by the program are collected into an ordered trace, and
externally visible side effects (the crawl call, creating the output
directory, creating and appending to the artifact file) into an ordered
effect list, so that properties about ordering of observable behaviour can
be stated.
-/
import Mathlib

namespace Vapourizer

/-! ### src/util/constants.py -/

def URL_PATTERNS : List String :=
  ["*react*", "*langgraph*", "*pydantic*", "*fastmcp*"]

def ALLOWED_DOMAINS : List String :=
  ["ai.pydantic.dev", "langchain-ai.github.io",
   "digitaltoolkit.livingdesign.walmart.com", "gofastmcp.com"]

def ALLOWED_CONTENT_TYPES : List String :=
  ["text/html"]

/-! ### crawl4ai filter chain (external collaborator)

`web_crawler.py` builds a `FilterChain` out of three crawl4ai filters.  The
filters themselves are external library code; we model each filter by the
data the repository passes to its constructor, and the chain by the list of
filters in construction order. -/

inductive CrawlFilter
  | urlPattern (patterns : List String)
  | domain (allowed_domains : List String)
  | contentType (allowed_types : List String)
deriving DecidableEq

/-- Modelled from the spec: the external crawl4ai `FilterChain` admits a
candidate if and only if every filter in the chain passes it, evaluated in
order with the first failing filter short-circuiting (§4.1: "All three must
pass; any failure rejects the candidate").  The verdict of an individual
filter on the candidate is abstracted as the oracle `passes`. -/
def chainAdmit (passes : CrawlFilter → Bool) : List CrawlFilter → Bool
  | [] => true
  | f :: fs => passes f && chainAdmit passes fs

/-! ### src/crawlers/web_crawler.py -/

structure BFSDeepCrawlStrategy where
  max_depth : Nat
  include_external : Bool
  filter_chain : List CrawlFilter
deriving DecidableEq

structure CrawlerRunConfig where
  deep_crawl_strategy : BFSDeepCrawlStrategy
  scraping_strategy : String
  verbose : Bool
deriving DecidableEq

/-- `WebCrawler._create_crawler_config` -/
def create_crawler_config (max_depth : Nat) (include_external : Bool)
    (verbose : Bool) : CrawlerRunConfig :=
  { deep_crawl_strategy :=
      { max_depth := max_depth
        include_external := include_external
        filter_chain :=
          [CrawlFilter.urlPattern URL_PATTERNS,
           CrawlFilter.domain ALLOWED_DOMAINS,
           CrawlFilter.contentType ALLOWED_CONTENT_TYPES] }
    scraping_strategy := "LXMLWebScrapingStrategy"
    verbose := verbose }

/-- A page result produced by the crawl engine (only the fields the
repository code reads: `result.url` and `result.markdown`). -/
structure PageResult where
  url : String
  markdown : String
deriving DecidableEq

/-- `WebCrawler.crawl`: runs the external engine (modelled by its outcome
`engine`) and, if it raised, re-raises
`Exception(f"Failed to crawl {url}: {str(e)}")`. -/
def WebCrawler.crawl (url : String) (engine : Except String (List PageResult)) :
    Except String (List PageResult) :=
  match engine with
  | .ok results => .ok results
  | .error e => .error ("Failed to crawl " ++ url ++ ": " ++ e)

/-! ### src/util/file_writer.py

A file on disk is modelled by its content (`FileState`).  An open Python
file object additionally carries an unflushed write buffer (`OpenHandle`);
`hwrite` models `f.write(...)`, `hflush` models `f.flush()` (and the flush
performed on close), so the point at which content becomes durable is
explicit. -/

structure FileState where
  disk : String
deriving DecidableEq

structure OpenHandle where
  disk : String
  buffer : String
deriving DecidableEq

def hwrite (h : OpenHandle) (s : String) : OpenHandle :=
  { h with buffer := h.buffer ++ s }

def hflush (h : OpenHandle) : OpenHandle :=
  { disk := h.disk ++ h.buffer, buffer := "" }

/-- Trailing-space stripping, as Python `str.rstrip()` acts on the filtered
characters (after the filter in `_generate_filename`, the only whitespace
character that can remain is a plain space). -/
def rstripSpaces (l : List Char) : List Char :=
  (l.reverse.dropWhile (fun c => c = ' ')).reverse

/-- The base-name sanitization inside `FileWriter._generate_filename`:
keep alphanumerics, space, hyphen, underscore; strip trailing spaces;
replace spaces by underscores; lowercase (ASCII model of Python's
`isalnum`/`lower`). -/
def sanitize_base (base_name : String) : String :=
  String.mk
    (((rstripSpaces
        (base_name.data.filter
          (fun c => c.isAlphanum || c = ' ' || c = '-' || c = '_'))).map
      (fun c => if c = ' ' then '_' else c)).map Char.toLower)

/-- `FileWriter._generate_filename` (the timestamp string `ts` is the
formatted `datetime.now()` value, supplied by the environment). -/
def generate_filename (base_name : String) (extension : String)
    (ts : String) (timestamp : Bool) : String :=
  if timestamp then sanitize_base base_name ++ "_" ++ ts ++ extension
  else sanitize_base base_name ++ extension

/-- The header written by `FileWriter.initialize_streaming_markdown` (`now`
is the formatted generation time supplied by the environment). -/
def header_content (title : Option String) (now : String) : String :=
  match title with
  | some t => "# " ++ t ++ "\n\n" ++ "*Generated on: " ++ now ++ "*\n\n" ++ "---\n\n"
  | none => ""

/-- `FileWriter.initialize_streaming_markdown`: generates the file name,
opens the target path with mode `'w'` — truncating whatever was on disk at
that path (`prev`) — writes the header and closes.  Returns the path and
the resulting file state. -/
def initialize_streaming_markdown (output_dir base_filename : String)
    (title : Option String) (now ts : String) (timestamp : Bool)
    (_prev : FileState) : String × FileState :=
  let file_name := generate_filename base_filename ".md" ts timestamp
  let file_path := output_dir ++ "/" ++ file_name
  -- open(file_path, 'w') truncates prev; write header; close flushes
  let h := hflush (hwrite (OpenHandle.mk "" "") (header_content title now))
  (file_path, { disk := h.disk })

/-- The chunk `FileWriter.append_to_markdown` writes:
optional `## {section_title}` header, the content, a blank-line
separator. -/
def append_block (content : String) (section_title : Option String) : String :=
  (match section_title with
   | some t => "## " ++ t ++ "\n\n"
   | none => "") ++ (content ++ "\n\n")

/-- `FileWriter.append_to_markdown`: opens the file in append mode,
writes the block, flushes, closes. -/
def append_to_markdown (file : FileState) (content : String)
    (section_title : Option String) : FileState :=
  let h := OpenHandle.mk file.disk ""          -- open(file_path, 'a')
  let h := hwrite h (append_block content section_title)
  let h := hflush h                            -- f.flush()
  { disk := h.disk }

/-! ### src/llm/agent.py -/

/-- The system prompt from src/llm/prompts.py, abbreviated to its opening
words; only its identity matters to the orchestration layer. -/
def SYSTEM_PROMPT : String :=
  "You are an intelligent and precise parsing agent"

/-- The observable state of the configuration file `/etc/secrets/.json`:
absent, present but not valid JSON, or parsed — in which case only the set
of top-level field names matters to `load_llm_config`. -/
inductive ConfigFile
  | missing
  | invalidJson (msg : String)
  | parsed (fields : List String)
deriving DecidableEq

/-- Python's `repr` of the list of missing field names, as interpolated
into the error message `f"Missing required configuration fields: {missing_fields}"`. -/
def pyListRepr (l : List String) : String :=
  "[" ++ String.intercalate ", " (l.map (fun f => "'" ++ f ++ "'")) ++ "]"

/-- `load_llm_config`: fails if the file is missing, is invalid JSON, or
lacks a required field (`base_url`, `api_key`); otherwise returns the
parsed configuration. -/
def load_llm_config (cfg : ConfigFile) : Except String (List String) :=
  match cfg with
  | .missing => .error "Configuration file not found: /etc/secrets/.json"
  | .invalidJson msg => .error ("Invalid JSON in configuration file: " ++ msg)
  | .parsed fields =>
    let missing_fields := ["base_url", "api_key"].filter (fun f => !fields.contains f)
    if missing_fields.isEmpty then .ok fields
    else .error ("Missing required configuration fields: " ++ pyListRepr missing_fields)

/-- The agent object built by `create_agent` (the fields the repository
sets; the HTTP client and provider plumbing are external collaborators). -/
structure Agent where
  model_name : String
  instructions : String
  retries : Nat
deriving DecidableEq

/-- `create_agent`: loads the configuration and builds the agent; any
`LLMConfigError` is wrapped as `f"Failed to create agent: {e}"`. -/
def create_agent (cfg : ConfigFile) : Except String Agent :=
  match load_llm_config cfg with
  | .error e => .error ("Failed to create agent: " ++ e)
  | .ok _ =>
    .ok { model_name := "claude-sonnet-4", instructions := SYSTEM_PROMPT, retries := 3 }

/-! ### src/main.py — the run controller -/

/-- Externally visible side effects of a run, in order of occurrence. -/
inductive Effect
  | crawlCall (url : String)
  | mkdirOutputDir (dir : String)
  | fileCreate (path : String)
  | fileAppend (path : String)
deriving DecidableEq

/-- The terminal state of a run (§4.5 of the spec: `Done(completed)` /
`Done(failed)`). -/
inductive Outcome
  | completed
  | failed
deriving DecidableEq

/-- The outcome of one run: terminal state, ordered trace of printed
messages, ordered side effects, and — when the streaming writer was
initialized — the artifact path with its final content. -/
structure RunResult where
  outcome : Outcome
  trace : List String
  effects : List Effect
  file : Option (String × FileState)
deriving DecidableEq

/-- The prompt `main` passes to `agent.run` for one page (the literal
instruction text with the page markdown interpolated; surrounding
indentation whitespace normalized). -/
def extraction_prompt (markdown : String) : String :=
  "Consider the markdown attached. You must extract useful information from it and return as formatted markdown.\n\n"
    ++ markdown

/-- The section title `main` uses for page `i` (1-based):
`f"Page {i}: {result.url}"`. -/
def section_title (i : Nat) (url : String) : String :=
  "Page " ++ toString i ++ ": " ++ url

/-- The per-page loop of `main` (`for i, result in enumerate(crawl_results, 1)`),
starting at index `i` with artifact state `file`.  `agent_run` is the
external LLM collaborator: for each call it receives the 1-based page index
and the prompt, and returns the extracted output or the raised exception's
message.  Returns the final artifact state, the printed messages and the
file side effects, in order. -/
def process_pages (agent_run : Nat → String → Except String String)
    (path : String) :
    List PageResult → Nat → FileState → FileState × List String × List Effect
  | [], _, file => (file, [], [])
  | r :: rs, i, file =>
    match agent_run i (extraction_prompt r.markdown) with
    | .error e =>
      let rest := process_pages agent_run path rs (i + 1) file
      (rest.1,
       ("\n🤖 >> Extracting information from " ++ r.url)
         :: ("❌ Error extracting information from " ++ r.url ++ ": " ++ e)
         :: rest.2.1,
       rest.2.2)
    | .ok output =>
      let file' := append_to_markdown file output (some (section_title i r.url))
      let rest := process_pages agent_run path rs (i + 1) file'
      (rest.1,
       ("\n🤖 >> Extracting information from " ++ r.url)
         :: ("\n🤖 >> Extracted information from " ++ r.url)
         :: ("✅ >> Appended results for " ++ r.url ++ " to markdown file")
         :: rest.2.1,
       Effect.fileAppend path :: rest.2.2)

/-- The messages `main` prints before entering its `try` block: the crawler
configuration summary (for the fixed configuration `max_depth=2,
include_external=True, verbose=True` used by `main`), the target URL and a
separator line. -/
def pre_crawl_trace (target_url : String) : List String :=
  ["Web Crawler Configuration:",
   "  max_depth: 2",
   "  include_external: True",
   "  verbose: True",
   "  strategy: BFSDeepCrawlStrategy",
   "  scraping_strategy: LXMLWebScrapingStrategy",
   "",
   "Target URL: " ++ target_url,
   String.mk (List.replicate 60 '=')]

/-- `main`: crawl, initialize the streaming artifact, iterate pages with
per-page failure isolation, report.  `engine` is the external crawl
engine's behaviour for this run; `now`/`ts` are the formatted
`datetime.now()` values used for the header and the file name. -/
def main (target_url : String) (engine : Except String (List PageResult))
    (agent_run : Nat → String → Except String String)
    (now ts : String) : RunResult :=
  match WebCrawler.crawl target_url engine with
  | .error e =>
    { outcome := .failed
      trace := pre_crawl_trace target_url
        ++ ["Starting crawl of: " ++ target_url,
            "❌ Error during crawl: " ++ e]
      effects := [Effect.crawlCall target_url]
      file := none }
  | .ok crawl_results =>
    let n := crawl_results.length
    -- FileWriter(output_dir="out") creates the directory, then
    -- initialize_streaming_markdown creates the artifact.
    let init := initialize_streaming_markdown "out" "walmart_design_toolkit"
      (some ("Web Crawl Results - " ++ toString n ++ " pages")) now ts true
      (FileState.mk "")
    let output_path := init.1
    let res := process_pages agent_run output_path crawl_results 1 init.2
    { outcome := .completed
      trace := pre_crawl_trace target_url
        ++ ["Starting crawl of: " ++ target_url,
            "Successfully crawled " ++ toString n ++ " pages",
            "📄 Streaming results to: " ++ output_path]
        ++ res.2.1
        ++ ["\n✅ Crawl completed successfully!",
            "📄 All results saved to: " ++ output_path]
      effects := [Effect.crawlCall target_url,
                  Effect.mkdirOutputDir "out",
                  Effect.fileCreate output_path]
        ++ res.2.2
      file := some (output_path, res.1) }

/-- The whole process: importing `llm.agent` at module load runs
`create_agent`; if that raises `LLMConfigError`, the error is logged and
re-raised, aborting the process before `main` ever runs (no crawl call, no
filesystem effect). -/
def run_process (cfg : ConfigFile) (target_url : String)
    (engine : Except String (List PageResult))
    (agent_run : Nat → String → Except String String)
    (now ts : String) : RunResult :=
  match create_agent cfg with
  | .error e =>
    { outcome := .failed
      trace := ["Failed to initialize LLM agent: " ++ e]
      effects := []
      file := none }
  | .ok _ => main target_url engine agent_run now ts

/-! ### Derived notions used to state properties of a run -/

/-- Concatenation of a list of strings, in order. -/
def strConcat : List String → String
  | [] => ""
  | s :: l => s ++ strConcat l

/-- The successful extractions among the pages, processed in order starting
at 1-based index `i`: for each page whose `agent.run` call succeeds, its
index, URL and extracted output. -/
def page_successes (agent_run : Nat → String → Except String String) :
    Nat → List PageResult → List (Nat × String × String)
  | _, [] => []
  | i, r :: rs =>
    match agent_run i (extraction_prompt r.markdown) with
    | .error _ => page_successes agent_run (i + 1) rs
    | .ok output => (i, r.url, output) :: page_successes agent_run (i + 1) rs

/-- The markdown block `main` appends for a successful page: the section
title as a `##` header, then the extracted output, then a blank-line
separator. -/
def section_block (i : Nat) (url output : String) : String :=
  "## " ++ section_title i url ++ "\n\n" ++ (output ++ "\n\n")

/-- The concatenated section blocks of all successful extractions, in
processing order. -/
def sections_text (agent_run : Nat → String → Except String String)
    (i : Nat) (rs : List PageResult) : String :=
  strConcat ((page_successes agent_run i rs).map
    (fun x => section_block x.1 x.2.1 x.2.2))

/-- The artifact path `main` uses (output directory `out`, base name
`walmart_design_toolkit`, timestamped). -/
def out_path (ts : String) : String :=
  "out" ++ "/" ++ generate_filename "walmart_design_toolkit" ".md" ts true

/-- The artifact header `main` writes for `n` crawled pages. -/
def main_header (n : Nat) (now : String) : String :=
  header_content (some ("Web Crawl Results - " ++ toString n ++ " pages")) now

/-! ### Helper lemmas -/

theorem append_to_markdown_disk (f : FileState) (c : String) (t : Option String) :
    (append_to_markdown f c t).disk = f.disk ++ append_block c t := by
  simp [append_to_markdown, hwrite, hflush, String.empty_append]

theorem append_block_some (c t : String) :
    append_block c (some t) = "## " ++ t ++ "\n\n" ++ (c ++ "\n\n") := rfl

/-- The artifact state after the per-page loop: whatever was on disk, with
one section block per successful extraction appended, in processing
order. -/
theorem process_pages_disk (agent_run : Nat → String → Except String String)
    (path : String) :
    ∀ (rs : List PageResult) (i : Nat) (f : FileState),
      (process_pages agent_run path rs i f).1.disk =
        f.disk ++ sections_text agent_run i rs := by
  intro rs
  induction rs with
  | nil =>
    intro i f
    simp [process_pages, sections_text, page_successes, strConcat, String.append_empty]
  | cons r rs ih =>
    intro i f
    cases h : agent_run i (extraction_prompt r.markdown) with
    | error e =>
      simp [process_pages, h, ih, sections_text, page_successes]
    | ok output =>
      simp only [process_pages, h, ih, sections_text, page_successes, List.map_cons,
        strConcat, append_to_markdown_disk, append_block_some, section_block,
        String.append_assoc]

/-- Every entry of `page_successes` comes from a page of the list whose
`agent.run` call succeeded, at the index matching its position. -/
theorem mem_page_successes (agent_run : Nat → String → Except String String) :
    ∀ (rs : List PageResult) (i : Nat) (x : Nat × String × String),
      x ∈ page_successes agent_run i rs →
      ∃ j, ∃ hj : j < rs.length, x.1 = i + j ∧
        agent_run x.1 (extraction_prompt (rs.get ⟨j, hj⟩).markdown) = .ok x.2.2 := by
  intro rs
  induction rs with
  | nil => intro i x hx; simp [page_successes] at hx
  | cons r rs ih =>
    intro i x hx
    rw [page_successes] at hx
    cases h : agent_run i (extraction_prompt r.markdown) with
    | error e =>
      rw [h] at hx
      obtain ⟨j, hj, hji, hok⟩ := ih (i + 1) x hx
      exact ⟨j + 1, by simpa using Nat.succ_lt_succ hj, by omega, by
        simpa using hok⟩
    | ok output =>
      rw [h] at hx
      rcases List.mem_cons.mp hx with hx | hx
      · subst hx
        exact ⟨0, Nat.succ_pos _, by omega, by simpa using h⟩
      · obtain ⟨j, hj, hji, hok⟩ := ih (i + 1) x hx
        exact ⟨j + 1, by simpa using Nat.succ_lt_succ hj, by omega, by
          simpa using hok⟩

/-- When the `agent.run` call for the page at position `j` fails, the error
message `main` prints for it is in the loop's trace. -/
theorem error_msg_mem (agent_run : Nat → String → Except String String)
    (path : String) :
    ∀ (rs : List PageResult) (i : Nat) (f : FileState) (j : Nat)
      (hj : j < rs.length) (e : String),
      agent_run (i + j) (extraction_prompt (rs.get ⟨j, hj⟩).markdown) = .error e →
      ("❌ Error extracting information from " ++ (rs.get ⟨j, hj⟩).url ++ ": " ++ e)
        ∈ (process_pages agent_run path rs i f).2.1 := by
  intro rs
  induction rs with
  | nil => intro i f j hj; exact absurd hj (by simp)
  | cons r rs ih =>
    intro i f j hj e he
    cases j with
    | zero =>
      simp only [List.get] at he
      rw [process_pages]
      rw [Nat.add_zero] at he
      rw [he]
      simp
    | succ j =>
      have hj' : j < rs.length := by simpa using Nat.lt_of_succ_lt_succ hj
      have he' : agent_run ((i + 1) + j)
          (extraction_prompt (rs.get ⟨j, hj'⟩).markdown) = .error e := by
        have : (i + 1) + j = i + (j + 1) := by omega
        rw [this]
        simpa using he
      have hmem := ih (i + 1) (append_to_markdown f
        ((agent_run i (extraction_prompt r.markdown)).toOption.getD "")
        (some (section_title i r.url))) j hj' e he'
      rw [process_pages]
      cases h : agent_run i (extraction_prompt r.markdown) with
      | error e0 =>
        have hmem0 := ih (i + 1) f j hj' e he'
        simp only [List.mem_cons]
        right; right
        simpa using hmem0
      | ok output =>
        have hmem0 := ih (i + 1)
          (append_to_markdown f output (some (section_title i r.url))) j hj' e he'
        simp only [List.mem_cons]
        right; right; right
        simpa using hmem0

/-- When the crawl succeeds, the artifact `main` produces is the header for
the page count followed by one section block per successful extraction, in
processing order, at the generated output path. -/
theorem main_ok_file (target_url : String) (pages : List PageResult)
    (agent_run : Nat → String → Except String String) (now ts : String) :
    (main target_url (.ok pages) agent_run now ts).file =
      some (out_path ts,
        FileState.mk (main_header pages.length now
          ++ sections_text agent_run 1 pages)) := by
  simp only [main, WebCrawler.crawl, out_path, main_header]
  congr 1
  refine Prod.ext rfl ?_
  apply congrArg FileState.mk
  rw [process_pages_disk]
  simp [initialize_streaming_markdown, hwrite, hflush, String.empty_append]

/-- When the crawl succeeds the run terminates in `Done(completed)`, and
its trace is the pre-crawl prints, the crawl report, the streaming notice,
the per-page messages, and the completion summary, in that order. -/
theorem main_ok_shape (target_url : String) (pages : List PageResult)
    (agent_run : Nat → String → Except String String) (now ts : String) :
    (main target_url (.ok pages) agent_run now ts).outcome = .completed ∧
    (main target_url (.ok pages) agent_run now ts).trace =
      pre_crawl_trace target_url
        ++ ["Starting crawl of: " ++ target_url,
            "Successfully crawled " ++ toString pages.length ++ " pages",
            "📄 Streaming results to: " ++ out_path ts]
        ++ (process_pages agent_run (out_path ts) pages 1
              (FileState.mk (main_header pages.length now))).2.1
        ++ ["\n✅ Crawl completed successfully!",
            "📄 All results saved to: " ++ out_path ts] := by
  constructor
  · rfl
  · simp only [main, WebCrawler.crawl, out_path, main_header,
      initialize_streaming_markdown, hwrite, hflush, String.empty_append]

/-! ### The claims -/

/-- C3: the crawler configuration composes the filter chain of exactly the
URL-pattern filter, the domain filter and the content-type filter, in that
order; the chain is constructed identically regardless of the
`include_external` flag (and of `verbose`); and, under the chain's
conjunctive admission semantics, a candidate is admitted iff all three
filters pass it. -/
theorem filter_chain_composition (max_depth : Nat) (ie ie' v v' : Bool) :
    (create_crawler_config max_depth ie v).deep_crawl_strategy.filter_chain =
      [CrawlFilter.urlPattern URL_PATTERNS,
       CrawlFilter.domain ALLOWED_DOMAINS,
       CrawlFilter.contentType ALLOWED_CONTENT_TYPES] ∧
    (create_crawler_config max_depth ie v).deep_crawl_strategy.filter_chain =
      (create_crawler_config max_depth ie' v').deep_crawl_strategy.filter_chain ∧
    (∀ passes : CrawlFilter → Bool,
      chainAdmit passes
          (create_crawler_config max_depth ie v).deep_crawl_strategy.filter_chain = true ↔
        (passes (CrawlFilter.urlPattern URL_PATTERNS) = true ∧
         passes (CrawlFilter.domain ALLOWED_DOMAINS) = true ∧
         passes (CrawlFilter.contentType ALLOWED_CONTENT_TYPES) = true)) := by
  refine ⟨rfl, rfl, fun passes => ?_⟩
  simp [create_crawler_config, chainAdmit, Bool.and_eq_true, and_assoc]

/-- C8: `append_to_markdown` with a section title appends to the file
exactly the `##` subsection header line for the title, then the content,
then a blank-line separator — and the handle is flushed before the call
returns: after the `flush()` the whole block is already on disk and the
write buffer is empty. -/
theorem append_section_exact (f : FileState) (t content : String) :
    append_to_markdown f content (some t) =
      FileState.mk (f.disk ++ ("## " ++ t ++ "\n\n" ++ (content ++ "\n\n"))) ∧
    hflush (hwrite (OpenHandle.mk f.disk "") (append_block content (some t))) =
      OpenHandle.mk (f.disk ++ ("## " ++ t ++ "\n\n" ++ (content ++ "\n\n"))) "" := by
  constructor
  · simp [append_to_markdown, append_block, hwrite, hflush, String.empty_append]
  · simp [append_block, hwrite, hflush, String.empty_append]

/-- C9: initializing the streaming artifact twice with the same directory,
base name and timestamp targets the same path, and the second call
truncates and restarts the artifact — whatever was appended after the
first call, after the second call the file contains exactly the second
call's header (title line, generation timestamp, separator) and nothing
else. -/
theorem initialize_twice_truncates (output_dir base t1 n1 t2 n2 ts : String)
    (timestamp : Bool) (prev : FileState) (ops : List (String × Option String)) :
    (initialize_streaming_markdown output_dir base (some t2) n2 ts timestamp
        (ops.foldl (fun f op => append_to_markdown f op.1 op.2)
          (initialize_streaming_markdown output_dir base (some t1) n1 ts timestamp
            prev).2)).1 =
      (initialize_streaming_markdown output_dir base (some t1) n1 ts timestamp
        prev).1 ∧
    (initialize_streaming_markdown output_dir base (some t2) n2 ts timestamp
        (ops.foldl (fun f op => append_to_markdown f op.1 op.2)
          (initialize_streaming_markdown output_dir base (some t1) n1 ts timestamp
            prev).2)).2 =
      FileState.mk ("# " ++ t2 ++ "\n\n" ++ "*Generated on: " ++ n2 ++ "*\n\n"
        ++ "---\n\n") := by
  constructor
  · rfl
  · simp [initialize_streaming_markdown, header_content, hwrite, hflush,
      String.empty_append]

/-- C10: initializing the streaming artifact with no title still creates
and truncates the target file and returns its generated path, but writes no
header at all, leaving an empty file. -/
theorem initialize_no_title_empty (output_dir base now ts : String)
    (timestamp : Bool) (prev : FileState) :
    initialize_streaming_markdown output_dir base none now ts timestamp prev =
      (output_dir ++ "/" ++ generate_filename base ".md" ts timestamp,
       FileState.mk "") := by
  simp [initialize_streaming_markdown, header_content, hwrite, hflush,
    String.empty_append]

/-- C2: for any run whose crawl succeeds, the artifact is the header
followed by exactly one section block per successful extraction, in
processing order, each block preceded by its section title; and appending
is the only file operation the loop performs — `append_to_markdown` only
ever adds the new block after the existing content, never rewriting or
removing anything. -/
theorem append_order_invariant (target_url : String) (pages : List PageResult)
    (agent_run : Nat → String → Except String String) (now ts : String) :
    (main target_url (.ok pages) agent_run now ts).file =
      some (out_path ts,
        FileState.mk (main_header pages.length now
          ++ strConcat ((page_successes agent_run 1 pages).map
              (fun x => "## " ++ section_title x.1 x.2.1 ++ "\n\n"
                ++ (x.2.2 ++ "\n\n"))))) ∧
    (∀ (f : FileState) (c : String) (t : Option String),
      (append_to_markdown f c t).disk = f.disk ++ append_block c t) := by
  refine ⟨?_, append_to_markdown_disk⟩
  rw [main_ok_file]
  rfl

/-- C1: if the `agent.run` call for page `k` (1-based index `k+1`) raises,
the run controller logs the error for that page and the run still
terminates in `Done(completed)`; the artifact contains one section block
per successfully extracted page, in order, and none carrying page `k`'s
index. -/
theorem extraction_failure_skips_page (target_url : String)
    (pages : List PageResult)
    (agent_run : Nat → String → Except String String) (now ts : String)
    (k : Nat) (hk : k < pages.length) (e : String)
    (hfail : agent_run (k + 1)
      (extraction_prompt (pages.get ⟨k, hk⟩).markdown) = .error e) :
    (main target_url (.ok pages) agent_run now ts).outcome = .completed ∧
    ("❌ Error extracting information from " ++ (pages.get ⟨k, hk⟩).url ++ ": " ++ e)
      ∈ (main target_url (.ok pages) agent_run now ts).trace ∧
    (main target_url (.ok pages) agent_run now ts).file =
      some (out_path ts,
        FileState.mk (main_header pages.length now
          ++ sections_text agent_run 1 pages)) ∧
    (k + 1) ∉ (page_successes agent_run 1 pages).map Prod.fst := by
  refine ⟨(main_ok_shape target_url pages agent_run now ts).1, ?_,
    main_ok_file target_url pages agent_run now ts, ?_⟩
  · rw [(main_ok_shape target_url pages agent_run now ts).2]
    have h1k : (1 : Nat) + k = k + 1 := by omega
    have hmem := error_msg_mem agent_run (out_path ts) pages 1
      (FileState.mk (main_header pages.length now)) k hk e (by rw [h1k]; exact hfail)
    simp only [List.mem_append, List.mem_cons]
    tauto
  · intro hmem
    obtain ⟨x, hx, hx1⟩ := List.mem_map.mp hmem
    obtain ⟨j, hj, hji, hok⟩ := mem_page_successes agent_run pages 1 x hx
    have hjk : j = k := by omega
    subst hjk
    rw [hx1] at hok
    have : pages.get ⟨j, hj⟩ = pages.get ⟨j, hk⟩ := rfl
    rw [this, hfail] at hok
    exact Except.noConfusion hok

/-- C5: if the crawl of the root URL fails, `WebCrawler.crawl` raises an
error whose message embeds the failed URL, and the run goes straight to
`Done(failed)`: the trace ends at the crawl error, the only side effect is
the crawl call itself (no output directory, no artifact file), no
extraction is attempted and no artifact is produced. -/
theorem root_crawl_failure (target_url e : String)
    (agent_run : Nat → String → Except String String) (now ts : String) :
    WebCrawler.crawl target_url (.error e) =
      .error ("Failed to crawl " ++ target_url ++ ": " ++ e) ∧
    (∃ pre post, "Failed to crawl " ++ target_url ++ ": " ++ e
      = pre ++ (target_url ++ post)) ∧
    main target_url (.error e) agent_run now ts =
      { outcome := .failed
        trace := pre_crawl_trace target_url
          ++ ["Starting crawl of: " ++ target_url,
              "❌ Error during crawl: "
                ++ ("Failed to crawl " ++ target_url ++ ": " ++ e)]
        effects := [Effect.crawlCall target_url]
        file := none } := by
  refine ⟨rfl, ⟨"Failed to crawl ", ": " ++ e, ?_⟩, rfl⟩
  simp [String.append_assoc]

/-- C4: loading the LLM provider configuration fails iff the file is
missing, is invalid JSON, or lacks `base_url` or `api_key`; and whenever it
fails, the process aborts at agent-import time with no side effect at all —
in particular before any crawl call and before the output directory is
touched. -/
theorem config_load_fails_iff (cfg : ConfigFile) (target_url : String)
    (engine : Except String (List PageResult))
    (agent_run : Nat → String → Except String String) (now ts : String) :
    ((∃ e, load_llm_config cfg = .error e) ↔
      (cfg = .missing ∨ (∃ m, cfg = .invalidJson m) ∨
       (∃ fields, cfg = .parsed fields ∧
         (fields.contains "base_url" = false ∨
          fields.contains "api_key" = false)))) ∧
    (∀ e, load_llm_config cfg = .error e →
      run_process cfg target_url engine agent_run now ts =
        { outcome := .failed
          trace := ["Failed to initialize LLM agent: "
            ++ ("Failed to create agent: " ++ e)]
          effects := []
          file := none }) := by
  constructor
  · cases cfg with
    | missing => simp [load_llm_config]
    | invalidJson m => simp [load_llm_config]
    | parsed fields =>
      by_cases hb : "base_url" ∈ fields <;>
        by_cases ha : "api_key" ∈ fields <;>
          simp [load_llm_config, List.filter, hb, ha]
  · intro e he
    rw [run_process, create_agent, he]

/-- C4 witness: a configuration file with `base_url` but no `api_key` makes
the process abort at start with no side effects. -/
theorem config_load_fails_iff_witness :
    run_process (ConfigFile.parsed ["base_url"]) "u" (Except.ok [])
        (fun _ _ => Except.ok "") "N" "T" =
      { outcome := .failed
        trace := ["Failed to initialize LLM agent: "
          ++ ("Failed to create agent: "
            ++ "Missing required configuration fields: ['api_key']")]
        effects := []
        file := none } :=
  (config_load_fails_iff (ConfigFile.parsed ["base_url"]) "u" (Except.ok [])
      (fun _ _ => Except.ok "") "N" "T").2
    "Missing required configuration fields: ['api_key']" rfl

/-- C1 witness: in a two-page run whose first extraction raises, the run
completes, the error is logged, the artifact holds exactly the successful
pages' sections and page 1 contributes none. -/
theorem extraction_failure_skips_page_witness :
    (main "u" (.ok [PageResult.mk "a" "ma", PageResult.mk "b" "mb"])
        (fun i _ => if i = 1 then Except.error "boom" else Except.ok "out")
        "N" "T").outcome = .completed ∧
    ("❌ Error extracting information from " ++ "a" ++ ": " ++ "boom")
      ∈ (main "u" (.ok [PageResult.mk "a" "ma", PageResult.mk "b" "mb"])
          (fun i _ => if i = 1 then Except.error "boom" else Except.ok "out")
          "N" "T").trace ∧
    (main "u" (.ok [PageResult.mk "a" "ma", PageResult.mk "b" "mb"])
        (fun i _ => if i = 1 then Except.error "boom" else Except.ok "out")
        "N" "T").file =
      some (out_path "T",
        FileState.mk (main_header 2 "N"
          ++ sections_text
              (fun i _ => if i = 1 then Except.error "boom" else Except.ok "out")
              1 [PageResult.mk "a" "ma", PageResult.mk "b" "mb"])) ∧
    1 ∉ (page_successes
          (fun i _ => if i = 1 then Except.error "boom" else Except.ok "out")
          1 [PageResult.mk "a" "ma", PageResult.mk "b" "mb"]).map Prod.fst :=
  extraction_failure_skips_page "u" [PageResult.mk "a" "ma", PageResult.mk "b" "mb"]
    (fun i _ => if i = 1 then Except.error "boom" else Except.ok "out")
    "N" "T" 0 (by decide) "boom" rfl

/-- C6 counterexample: in a one-page run whose extraction succeeds, the
section title `main` uses is `"Page 1: https://a"`, not the page's URL
`"https://a"`: the artifact carries the `## Page 1: https://a` header, and
differs from the artifact an URL-titled section would give. -/
theorem section_title_not_bare_url :
    section_title 1 "https://a" ≠ "https://a" ∧
    (main "u" (.ok [PageResult.mk "https://a" "m"]) (fun _ _ => Except.ok "out")
        "N" "T").file =
      some ("out/walmart_design_toolkit_T.md",
        FileState.mk
          "# Web Crawl Results - 1 pages\n\n*Generated on: N*\n\n---\n\n## Page 1: https://a\n\nout\n\n") ∧
    "# Web Crawl Results - 1 pages\n\n*Generated on: N*\n\n---\n\n## Page 1: https://a\n\nout\n\n"
      ≠
    "# Web Crawl Results - 1 pages\n\n*Generated on: N*\n\n---\n\n## https://a\n\nout\n\n" :=
  ⟨by decide, by decide, by decide⟩

/-- C6 amended: for every page whose extraction succeeds, the section
appended to the artifact is titled `"Page {i}: {url}"` — the page's
1-based index, then the page's URL; the title thus ends in the page's URL
but is not the bare URL. -/
theorem section_titles_carry_page_label (target_url : String)
    (pages : List PageResult)
    (agent_run : Nat → String → Except String String) (now ts : String) :
    (main target_url (.ok pages) agent_run now ts).file =
      some (out_path ts,
        FileState.mk (main_header pages.length now
          ++ strConcat ((page_successes agent_run 1 pages).map
              (fun x => "## " ++ ("Page " ++ toString x.1 ++ ": " ++ x.2.1)
                ++ "\n\n" ++ (x.2.2 ++ "\n\n"))))) ∧
    (∀ i url, ∃ pre, section_title i url = pre ++ url) := by
  refine ⟨?_, fun i url => ⟨"Page " ++ toString i ++ ": ", rfl⟩⟩
  rw [main_ok_file]
  rfl

/-- C7 counterexample: in a three-page run whose second extraction raises,
the run completes, but after the last page the only messages are a fixed
success line and the output path: the final summary contains no digit at
all, the count of sections written (2) appears in no message of the run
(the lone message containing the digit 2 is the pre-run `max_depth`
configuration line), and the page count (3) is printed only before
extraction begins. -/
theorem final_summary_reports_no_counts :
    (main "u" (.ok [PageResult.mk "a" "ma", PageResult.mk "b" "mb",
        PageResult.mk "c" "mc"])
      (fun i _ => if i = 2 then Except.error "boom" else Except.ok "x")
      "N" "T").outcome = .completed ∧
    (main "u" (.ok [PageResult.mk "a" "ma", PageResult.mk "b" "mb",
        PageResult.mk "c" "mc"])
      (fun i _ => if i = 2 then Except.error "boom" else Except.ok "x")
      "N" "T").trace =
      pre_crawl_trace "u"
        ++ ["Starting crawl of: u",
            "Successfully crawled 3 pages",
            "📄 Streaming results to: out/walmart_design_toolkit_T.md",
            "\n🤖 >> Extracting information from a",
            "\n🤖 >> Extracted information from a",
            "✅ >> Appended results for a to markdown file",
            "\n🤖 >> Extracting information from b",
            "❌ Error extracting information from b: boom",
            "\n🤖 >> Extracting information from c",
            "\n🤖 >> Extracted information from c",
            "✅ >> Appended results for c to markdown file",
            "\n✅ Crawl completed successfully!",
            "📄 All results saved to: out/walmart_design_toolkit_T.md"] ∧
    ((main "u" (.ok [PageResult.mk "a" "ma", PageResult.mk "b" "mb",
        PageResult.mk "c" "mc"])
      (fun i _ => if i = 2 then Except.error "boom" else Except.ok "x")
      "N" "T").trace.filter (fun s => s.data.contains '2'))
      = ["  max_depth: 2"] ∧
    ((main "u" (.ok [PageResult.mk "a" "ma", PageResult.mk "b" "mb",
        PageResult.mk "c" "mc"])
      (fun i _ => if i = 2 then Except.error "boom" else Except.ok "x")
      "N" "T").trace.filter (fun s => s.data.contains '3'))
      = ["Successfully crawled 3 pages"] ∧
    (["\n✅ Crawl completed successfully!",
      "📄 All results saved to: out/walmart_design_toolkit_T.md"].all
        (fun s => s.data.all (fun c => !c.isDigit))) = true :=
  ⟨by decide, by decide, by decide, by decide, by decide⟩

/-- C7 amended: after the last page the run reaches `Done(completed)`; the
total number of pages crawled is reported when the crawl returns, before
extraction begins, and the final summary consists of a fixed success
message and the output path — it does not report the number of sections
written. -/
theorem run_completes_with_fixed_summary (target_url : String)
    (pages : List PageResult)
    (agent_run : Nat → String → Except String String) (now ts : String) :
    (main target_url (.ok pages) agent_run now ts).outcome = .completed ∧
    ("Successfully crawled " ++ toString pages.length ++ " pages")
      ∈ (main target_url (.ok pages) agent_run now ts).trace ∧
    (∃ pre, (main target_url (.ok pages) agent_run now ts).trace =
      pre ++ ["\n✅ Crawl completed successfully!",
              "📄 All results saved to: " ++ out_path ts]) := by
  obtain ⟨h1, h2⟩ := main_ok_shape target_url pages agent_run now ts
  refine ⟨h1, ?_, ?_⟩
  · rw [h2]
    simp
  · exact ⟨_, h2⟩

end Vapourizer
